import Mathlib

/-!
Verification of the ParentPal symptom API (src/main.py).

The handler is a linear pipeline: validate the two textual fields, lowercase
the concatenation of all four fields, filter by an allow-list of child-health
terms, filter by an emergency-term list, and otherwise call the external
model and post-process its reply.  The external model is abstracted as an
`Except String String` value: `.error e` models the call raising an exception
whose message is `e`, and `.ok t` models it returning text `t`.
-/

set_option maxRecDepth 8000

namespace ParentPal

/-- `pat` occurs contiguously inside `s`: the mathematical reading of
Python's `pat in s` on sequences. -/
def SubstrOf {α : Type} (pat s : List α) : Prop := ∃ t u, s = t ++ pat ++ u

/-- Executable substring test: some position `i` of `s` starts a copy of
`pat`.  This is the semantics of Python's `pat in s` for strings. -/
def containsSeq {α : Type} [DecidableEq α] (pat s : List α) : Bool :=
  (List.range (s.length + 1)).any (fun i => (s.drop i).take pat.length == pat)

/-- Number of positions of `s` at which `pat` occurs. -/
def occCount {α : Type} [DecidableEq α] (pat s : List α) : Nat :=
  ((Finset.range (s.length + 1)).filter (fun i => (s.drop i).take pat.length = pat)).card

/-- Python's `pat in s` on strings. -/
def pyIn (pat s : String) : Bool := containsSeq pat.toList s.toList

/-- Number of occurrences of `pat` in the string `s`. -/
def strOccCount (pat s : String) : Nat := occCount pat.toList s.toList

/-- Python's `str.lower()`: lowercase every character. -/
def pyLower (s : String) : String := String.mk (s.data.map Char.toLower)

/-- Remove the longest run of leading whitespace characters. -/
def dropLeadingWs : List Char → List Char
  | [] => []
  | c :: cs => if c.isWhitespace then dropLeadingWs cs else c :: cs

/-- Python's `str.strip()`: remove leading and trailing whitespace. -/
def pyStrip (s : String) : String :=
  String.mk ((dropLeadingWs ((dropLeadingWs s.data).reverse)).reverse)

/-- The request body of `POST /ask-symptom` (class `SymptomRequest`). -/
structure SymptomRequest where
  symptom_name : String
  description : String
  severity : String
  duration : String
deriving DecidableEq

/-- `ALLOWED_KEYWORDS` of src/main.py. -/
def ALLOWED_KEYWORDS : List String := [
  "child", "baby", "infant", "toddler", "kid", "newborn",
  "fever", "cough", "vomiting", "diarrhea", "constipation",
  "rash", "vaccination", "vaccine", "immunization",
  "weight", "height", "growth", "development",
  "milestone", "sleep", "nutrition", "feeding", "breastfeed",
  "teething", "diaper", "allergy", "cold", "flu"]

/-- `EMERGENCY_KEYWORDS` of src/main.py. -/
def EMERGENCY_KEYWORDS : List String := [
  "seizure", "seizures", "unconscious", "unconsciousness",
  "not breathing", "choking", "asphyxia",
  "blue lips", "cyanosis", "severe breathing",
  "very high fever", "high fever over", "104", "40c",
  "severe bleeding", "unresponsive", "poisoning", "overdose",
  "severe allergic", "anaphylaxis", "head injury", "fall",
  "unable to wake", "extreme lethargy", "rigid neck"]

/-- `is_child_health_query`: any allow-listed word occurs in the lowercased
text. -/
def is_child_health_query (text : String) : Bool :=
  ALLOWED_KEYWORDS.any (fun word => pyIn word (pyLower text))

/-- `is_emergency`: any emergency word occurs in the lowercased text. -/
def is_emergency (text : String) : Bool :=
  EMERGENCY_KEYWORDS.any (fun word => pyIn word (pyLower text))

/-- The fixed disclaimer appended by `sanitize_response`. -/
def DISCLAIMER : String :=
  "\n\n⚠️ Disclaimer: This information is for educational purposes only and is NOT a medical diagnosis. Please consult a pediatrician for proper medical advice."

/-- `sanitize_response`: append the disclaimer unless the text already
mentions "Disclaimer". -/
def sanitize_response (response_text : String) : String :=
  if pyIn "Disclaimer" response_text then response_text
  else response_text ++ DISCLAIMER

/-- The fixed refusal message for non-child-health queries. -/
def REFUSAL_MESSAGE : String :=
  "I\x27m specifically designed to help with child health questions. This question appears unrelated to child health."

/-- The fixed emergency-alert message. -/
def EMERGENCY_MESSAGE : String :=
  "🚨 EMERGENCY ALERT: Based on your description, this may be a medical emergency. Call emergency services or visit the nearest hospital immediately."

/-- A JSON scalar appearing in the endpoint's response bodies. -/
inductive JVal where
  | str : String → JVal
  | bool : Bool → JVal
deriving DecidableEq

/-- Outcome of one request: an `HTTPException` with status and detail, or a
200 JSON object listed as key/value pairs. -/
inductive Response where
  | httpError : Nat → String → Response
  | json : List (String × JVal) → Response
deriving DecidableEq

/-- `combined_query`: the four fields joined by blanks, lowercased. -/
def combined_query (r : SymptomRequest) : String :=
  pyLower (r.symptom_name ++ " " ++ r.description ++ " " ++ r.severity ++ " " ++ r.duration)

/-- The `/ask-symptom` handler.  `modelResult` abstracts
`model.generate_content`: `.error e` a raised exception with message `e`,
`.ok t` a reply whose `.text` is `t` (the empty string models a falsy
`response.text`, which the handler turns into a `ValueError` caught by the
same `except` block). -/
def ask_symptom (r : SymptomRequest) (modelResult : Except String String) : Response :=
  if r.symptom_name = "" ∨ (pyStrip r.symptom_name).length < 2 then
    .httpError 400 "Please provide a symptom name"
  else if r.description = "" ∨ (pyStrip r.description).length < 5 then
    .httpError 400 "Please provide a detailed description"
  else if is_child_health_query (combined_query r) = false then
    .json [("response", .str REFUSAL_MESSAGE), ("emergency", .bool false),
           ("symptom", .str r.symptom_name)]
  else if is_emergency (combined_query r) = true then
    .json [("response", .str EMERGENCY_MESSAGE), ("emergency", .bool true),
           ("symptom", .str r.symptom_name)]
  else
    match modelResult with
    | .error e => .httpError 500 ("An error occurred: " ++ e)
    | .ok text =>
      if text = "" then .httpError 500 ("An error occurred: Empty response from API")
      else .json [("response", .str (sanitize_response text)), ("emergency", .bool false),
                  ("symptom", .str r.symptom_name), ("severity", .str r.severity),
                  ("duration", .str r.duration)]

/-! ### Substring lemmas -/

/-- A copy of `pat` starting at position `i` of `s` makes `pat` a substring
of `s`. -/
theorem occurrence_substrOf {α : Type} (pat s : List α) (i : Nat)
    (h : (s.drop i).take pat.length = pat) : SubstrOf pat s := by
  refine ⟨s.take i, (s.drop i).drop pat.length, ?_⟩
  have h2 : s.drop i = pat ++ (s.drop i).drop pat.length := by
    conv_lhs => rw [← List.take_append_drop pat.length (s.drop i)]
    rw [h]
  calc s = s.take i ++ s.drop i := (List.take_append_drop i s).symm
    _ = s.take i ++ (pat ++ (s.drop i).drop pat.length) := by rw [← h2]
    _ = s.take i ++ pat ++ (s.drop i).drop pat.length := (List.append_assoc _ _ _).symm

/-- The executable substring test agrees with the mathematical substring
relation. -/
theorem containsSeq_iff {α : Type} [DecidableEq α] (pat s : List α) :
    containsSeq pat s = true ↔ SubstrOf pat s := by
  constructor
  · intro h
    rcases List.any_eq_true.mp h with ⟨i, _, hp⟩
    exact occurrence_substrOf pat s i (beq_iff_eq.mp hp)
  · rintro ⟨t, u, rfl⟩
    apply List.any_eq_true.mpr
    refine ⟨t.length, List.mem_range.mpr ?_, beq_iff_eq.mpr ?_⟩
    · simp only [List.length_append]
      omega
    · rw [List.append_assoc, List.drop_left, List.take_left]

/-- When the test reports no copy of `pat` in `s`, no position starts one. -/
theorem no_occurrence_of_not_containsSeq {α : Type} [DecidableEq α] {pat s : List α}
    (h : containsSeq pat s = false) : ∀ i, (s.drop i).take pat.length ≠ pat := by
  intro i hi
  have h2 := (containsSeq_iff pat s).mpr (occurrence_substrOf pat s i hi)
  rw [h] at h2
  exact Bool.noConfusion h2

/-- A substring of a substring is a substring. -/
theorem substrOf_trans {α : Type} {a b c : List α}
    (h1 : SubstrOf a b) (h2 : SubstrOf b c) : SubstrOf a c := by
  obtain ⟨t1, u1, rfl⟩ := h1
  obtain ⟨t2, u2, rfl⟩ := h2
  exact ⟨t2 ++ t1, u1 ++ u2, by simp [List.append_assoc]⟩

/-- Appending `d` to a list `r` that holds no copy of `d` yields exactly one
occurrence of `d`, provided no strict suffix of `d` is also a prefix of `d`
(no self-overlap). -/
theorem occCount_append_self {α : Type} [DecidableEq α] (r d : List α)
    (hd : d ≠ [])
    (hno : ∀ m, m < d.length → 1 ≤ m → d.drop m ≠ d.take (d.length - m))
    (hnotin : ∀ i, (r.drop i).take d.length ≠ d) :
    occCount d (r ++ d) = 1 := by
  have hdlen : 0 < d.length := List.length_pos.mpr hd
  have hkey : ∀ i ∈ Finset.range ((r ++ d).length + 1),
      ((((r ++ d).drop i).take d.length = d) ↔ i = r.length) := by
    intro i _
    constructor
    · intro h
      rcases Nat.lt_trichotomy i r.length with hlt | heq | hgt
      · exfalso
        rw [List.drop_append_of_le_length (le_of_lt hlt)] at h
        by_cases hcase : d.length ≤ (r.drop i).length
        · rw [List.take_append_of_le_length hcase] at h
          exact hnotin i h
        · push_neg at hcase
          have hm1 : 1 ≤ (r.drop i).length := by
            rw [List.length_drop]
            omega
          have h2 := congrArg (List.drop (r.drop i).length) h
          rw [List.drop_take, List.drop_left] at h2
          exact hno (r.drop i).length hcase hm1 (h2.symm)
      · exact heq
      · exfalso
        have hddrop : (r ++ d).drop i = d.drop (i - r.length) := by
          rw [List.drop_append_eq_append_drop,
            List.drop_of_length_le (le_of_lt hgt), List.nil_append]
        rw [hddrop, List.take_of_length_le (by rw [List.length_drop]; omega)] at h
        have h3 := congrArg List.length h
        rw [List.length_drop] at h3
        omega
    · rintro rfl
      rw [List.drop_left, List.take_length]
  unfold occCount
  rw [Finset.filter_congr hkey, Finset.filter_eq',
    if_pos (Finset.mem_range.mpr (by simp only [List.length_append]; omega)),
    Finset.card_singleton]

/-! ### Branch lemmas for the handler -/

/-- A request that passes both length checks of the handler. -/
def passesValidation (r : SymptomRequest) : Prop :=
  ¬(r.symptom_name = "" ∨ (pyStrip r.symptom_name).length < 2) ∧
  ¬(r.description = "" ∨ (pyStrip r.description).length < 5)

instance (r : SymptomRequest) : Decidable (passesValidation r) := by
  unfold passesValidation
  infer_instance

/-- An invalid symptom name short-circuits to the 400 "symptom name" error. -/
theorem ask_symptom_invalid_name (r : SymptomRequest) (m : Except String String)
    (h : r.symptom_name = "" ∨ (pyStrip r.symptom_name).length < 2) :
    ask_symptom r m = .httpError 400 "Please provide a symptom name" := by
  unfold ask_symptom
  rw [if_pos h]

/-- A valid name with an invalid description short-circuits to the 400
"description" error. -/
theorem ask_symptom_invalid_desc (r : SymptomRequest) (m : Except String String)
    (h1 : ¬(r.symptom_name = "" ∨ (pyStrip r.symptom_name).length < 2))
    (h2 : r.description = "" ∨ (pyStrip r.description).length < 5) :
    ask_symptom r m = .httpError 400 "Please provide a detailed description" := by
  unfold ask_symptom
  rw [if_neg h1, if_pos h2]

/-- No allow-listed keyword: the fixed refusal body, whatever the model. -/
theorem ask_symptom_refusal (r : SymptomRequest) (m : Except String String)
    (hv : passesValidation r)
    (hq : is_child_health_query (combined_query r) = false) :
    ask_symptom r m = .json [("response", .str REFUSAL_MESSAGE), ("emergency", .bool false),
      ("symptom", .str r.symptom_name)] := by
  unfold ask_symptom
  rw [if_neg hv.1, if_neg hv.2, if_pos hq]

/-- Allow-listed and emergency keywords: the fixed alert body, whatever the
model. -/
theorem ask_symptom_emergency (r : SymptomRequest) (m : Except String String)
    (hv : passesValidation r)
    (hq : is_child_health_query (combined_query r) = true)
    (he : is_emergency (combined_query r) = true) :
    ask_symptom r m = .json [("response", .str EMERGENCY_MESSAGE), ("emergency", .bool true),
      ("symptom", .str r.symptom_name)] := by
  unfold ask_symptom
  rw [if_neg hv.1, if_neg hv.2, if_neg (by simp [hq]), if_pos he]

/-- A failing model call surfaces as a 500 whose detail wraps the message. -/
theorem ask_symptom_model_error (r : SymptomRequest) (e : String)
    (hv : passesValidation r)
    (hq : is_child_health_query (combined_query r) = true)
    (he : is_emergency (combined_query r) = false) :
    ask_symptom r (.error e) = .httpError 500 ("An error occurred: " ++ e) := by
  unfold ask_symptom
  rw [if_neg hv.1, if_neg hv.2, if_neg (by simp [hq]), if_neg (by simp [he])]

/-- An empty model reply raises `ValueError`, caught by the same handler. -/
theorem ask_symptom_model_empty (r : SymptomRequest)
    (hv : passesValidation r)
    (hq : is_child_health_query (combined_query r) = true)
    (he : is_emergency (combined_query r) = false) :
    ask_symptom r (.ok "") = .httpError 500 "An error occurred: Empty response from API" := by
  unfold ask_symptom
  rw [if_neg hv.1, if_neg hv.2, if_neg (by simp [hq]), if_neg (by simp [he])]
  exact if_pos rfl

/-- A non-empty model reply is sanitized and wrapped in the success body. -/
theorem ask_symptom_model_ok (r : SymptomRequest) (t : String)
    (hv : passesValidation r)
    (hq : is_child_health_query (combined_query r) = true)
    (he : is_emergency (combined_query r) = false)
    (ht : t ≠ "") :
    ask_symptom r (.ok t) = .json [("response", .str (sanitize_response t)),
      ("emergency", .bool false), ("symptom", .str r.symptom_name),
      ("severity", .str r.severity), ("duration", .str r.duration)] := by
  unfold ask_symptom
  rw [if_neg hv.1, if_neg hv.2, if_neg (by simp [hq]), if_neg (by simp [he])]
  exact if_neg ht

/-- A validated request ends as a 200 body or as a 500 error. -/
theorem ask_symptom_cases (r : SymptomRequest) (m : Except String String)
    (hv : passesValidation r) :
    (∃ body, ask_symptom r m = .json body) ∨ (∃ d, ask_symptom r m = .httpError 500 d) := by
  by_cases hq : is_child_health_query (combined_query r) = false
  · exact .inl ⟨_, ask_symptom_refusal r m hv hq⟩
  · have hq2 : is_child_health_query (combined_query r) = true := by
      revert hq
      cases is_child_health_query (combined_query r) <;> simp
    by_cases he : is_emergency (combined_query r) = true
    · exact .inl ⟨_, ask_symptom_emergency r m hv hq2 he⟩
    · have he2 : is_emergency (combined_query r) = false := by
        revert he
        cases is_emergency (combined_query r) <;> simp
      cases m with
      | error e => exact .inr ⟨_, ask_symptom_model_error r e hv hq2 he2⟩
      | ok t =>
        by_cases ht : t = ""
        · subst ht
          exact .inr ⟨_, ask_symptom_model_empty r hv hq2 he2⟩
        · exact .inl ⟨_, ask_symptom_model_ok r t hv hq2 he2 ht⟩

/-- A validated request never produces a 400 error. -/
theorem valid_no_400 (r : SymptomRequest) (m : Except String String)
    (hv : passesValidation r) :
    ∀ detail, ask_symptom r m ≠ .httpError 400 detail := by
  intro detail hbad
  rcases ask_symptom_cases r m hv with ⟨body, hb⟩ | ⟨d, hd⟩
  · rw [hb] at hbad
    exact Response.noConfusion hbad
  · rw [hd] at hbad
    simp only [Response.httpError.injEq] at hbad
    omega

/-- The observable status class of an outcome: was it a 400 client error? -/
def is400 : Response → Bool
  | .httpError status _ => status == 400
  | .json _ => false

/-! ### Claims -/

/-- C1 counterexample: a request that passes validation and whose combined
text contains the emergency keyword "seizure" is answered with the fixed
refusal message and emergency=false (not the emergency alert), because no
allow-listed keyword occurs. -/
theorem claim_C1_counterexample :
    passesValidation ⟨"seizure", "shaking a lot", "high", "5 min"⟩ ∧
    is_emergency (combined_query ⟨"seizure", "shaking a lot", "high", "5 min"⟩) = true ∧
    ask_symptom ⟨"seizure", "shaking a lot", "high", "5 min"⟩ (.ok "x") =
      .json [("response", .str REFUSAL_MESSAGE), ("emergency", .bool false),
        ("symptom", .str "seizure")] := by
  refine ⟨by decide, by decide, by decide⟩

/-- C1 (amended): for every request that passes input validation, whose
lowercased concatenation of the four fields contains an emergency keyword
and also an allow-listed keyword, the endpoint returns the fixed
emergency-alert text with emergency=true. -/
theorem claim_C1 (r : SymptomRequest) (m : Except String String)
    (hv : passesValidation r)
    (hq : is_child_health_query (combined_query r) = true)
    (he : is_emergency (combined_query r) = true) :
    ask_symptom r m = .json [("response", .str EMERGENCY_MESSAGE), ("emergency", .bool true),
      ("symptom", .str r.symptom_name)] :=
  ask_symptom_emergency r m hv hq he

/-- C1 witness: a validated request mentioning "child" (allow-listed) and
"not breathing" (emergency) gets the fixed alert. -/
theorem claim_C1_witness :
    ask_symptom ⟨"fever", "child not breathing well", "high", "10 min"⟩ (.error "boom") =
      .json [("response", .str EMERGENCY_MESSAGE), ("emergency", .bool true),
        ("symptom", .str "fever")] :=
  claim_C1 ⟨"fever", "child not breathing well", "high", "10 min"⟩ (.error "boom")
    (by decide) (by decide) (by decide)

/-- C2: the allow-list check runs before the emergency check: a validated
request with no allow-listed keyword gets the fixed refusal body with
emergency=false even when an emergency keyword is present, for any model
behaviour. -/
theorem claim_C2 (r : SymptomRequest) (m : Except String String)
    (hv : passesValidation r)
    (hq : is_child_health_query (combined_query r) = false)
    (he : is_emergency (combined_query r) = true) :
    ask_symptom r m = .json [("response", .str REFUSAL_MESSAGE), ("emergency", .bool false),
      ("symptom", .str r.symptom_name)] :=
  ask_symptom_refusal r m hv hq

/-- C2 witness: "overdose" is an emergency keyword, yet without an
allow-listed keyword the refusal body is returned. -/
theorem claim_C2_witness :
    ask_symptom ⟨"overdose", "took too many pills", "high", "1 hour"⟩ (.ok "x") =
      .json [("response", .str REFUSAL_MESSAGE), ("emergency", .bool false),
        ("symptom", .str "overdose")] :=
  claim_C2 ⟨"overdose", "took too many pills", "high", "1 hour"⟩ (.ok "x")
    (by decide) (by decide) (by decide)

/-- C3: a validated request with no allow-listed keyword gets exactly the
fixed refusal message with emergency=false, and the outcome is the same for
any two model behaviours (the model is not consulted). -/
theorem claim_C3 (r : SymptomRequest) (m₁ m₂ : Except String String)
    (hv : passesValidation r)
    (hq : is_child_health_query (combined_query r) = false) :
    ask_symptom r m₁ = .json [("response", .str REFUSAL_MESSAGE), ("emergency", .bool false),
      ("symptom", .str r.symptom_name)] ∧
    ask_symptom r m₁ = ask_symptom r m₂ := by
  have h1 := ask_symptom_refusal r m₁ hv hq
  have h2 := ask_symptom_refusal r m₂ hv hq
  exact ⟨h1, h1.trans h2.symm⟩

/-- C3 witness: an off-topic request is refused identically whether the
model would answer or fail. -/
theorem claim_C3_witness :
    ask_symptom ⟨"math", "solve my equations", "high", "2 days"⟩ (.ok "a") =
      .json [("response", .str REFUSAL_MESSAGE), ("emergency", .bool false),
        ("symptom", .str "math")] ∧
    ask_symptom ⟨"math", "solve my equations", "high", "2 days"⟩ (.ok "a") =
      ask_symptom ⟨"math", "solve my equations", "high", "2 days"⟩ (.error "b") :=
  claim_C3 ⟨"math", "solve my equations", "high", "2 days"⟩ (.ok "a") (.error "b")
    (by decide) (by decide)

/-- C4 counterexample: when the model's non-empty reply already mentions
"Disclaimer", the handler returns it unchanged, and the fixed disclaimer
occurs zero times (not once) in the response text. -/
theorem claim_C4_counterexample :
    ask_symptom ⟨"fever", "my child has fever", "mild", "2 days"⟩ (.ok "ok see Disclaimer") =
      .json [("response", .str "ok see Disclaimer"), ("emergency", .bool false),
        ("symptom", .str "fever"), ("severity", .str "mild"), ("duration", .str "2 days")] ∧
    strOccCount DISCLAIMER "ok see Disclaimer" = 0 := by
  refine ⟨by decide, by decide⟩

/-- C4 (amended): for every valid child-health query (passes validation,
allow-listed keyword present, no emergency keyword) whose model reply is
non-empty and does not already contain "Disclaimer", the returned response
text is the reply with the fixed disclaimer appended, and the disclaimer
occurs in it exactly once. -/
theorem claim_C4 (r : SymptomRequest) (reply : String)
    (hv : passesValidation r)
    (hq : is_child_health_query (combined_query r) = true)
    (he : is_emergency (combined_query r) = false)
    (hne : reply ≠ "")
    (hd : pyIn "Disclaimer" reply = false) :
    ask_symptom r (.ok reply) =
      .json [("response", .str (reply ++ DISCLAIMER)), ("emergency", .bool false),
        ("symptom", .str r.symptom_name), ("severity", .str r.severity),
        ("duration", .str r.duration)] ∧
    strOccCount DISCLAIMER (reply ++ DISCLAIMER) = 1 := by
  constructor
  · have hok := ask_symptom_model_ok r reply hv hq he hne
    rw [hok]
    have hsan : sanitize_response reply = reply ++ DISCLAIMER := by
      unfold sanitize_response
      rw [if_neg (by simp [hd])]
    rw [hsan]
  · have kd : DISCLAIMER.toList ≠ [] := by decide
    have hno : ∀ m, m < DISCLAIMER.toList.length → 1 ≤ m →
        DISCLAIMER.toList.drop m ≠ DISCLAIMER.toList.take (DISCLAIMER.toList.length - m) := by
      decide
    have hw : SubstrOf "Disclaimer".toList DISCLAIMER.toList :=
      ⟨"\n\n⚠️ ".toList,
       ": This information is for educational purposes only and is NOT a medical diagnosis. Please consult a pediatrician for proper medical advice.".toList,
       by decide⟩
    have hnotin : ∀ i, (reply.toList.drop i).take DISCLAIMER.toList.length ≠ DISCLAIMER.toList := by
      intro i hi
      have hsub : SubstrOf DISCLAIMER.toList reply.toList := occurrence_substrOf _ _ i hi
      have hwr : SubstrOf "Disclaimer".toList reply.toList := substrOf_trans hw hsub
      have hcontr := (containsSeq_iff "Disclaimer".toList reply.toList).mpr hwr
      rw [show containsSeq "Disclaimer".toList reply.toList = pyIn "Disclaimer" reply from rfl,
        hd] at hcontr
      exact Bool.noConfusion hcontr
    have hcount := occCount_append_self reply.toList DISCLAIMER.toList kd hno hnotin
    unfold strOccCount
    have happ : (reply ++ DISCLAIMER).toList = reply.toList ++ DISCLAIMER.toList :=
      String.data_append reply DISCLAIMER
    rw [happ]
    exact hcount

/-- C4 witness: a clean reply comes back with the disclaimer appended once. -/
theorem claim_C4_witness :
    ask_symptom ⟨"fever", "my child has fever", "mild", "2 days"⟩ (.ok "Keep hydrated.") =
      .json [("response", .str ("Keep hydrated." ++ DISCLAIMER)), ("emergency", .bool false),
        ("symptom", .str "fever"), ("severity", .str "mild"), ("duration", .str "2 days")] ∧
    strOccCount DISCLAIMER ("Keep hydrated." ++ DISCLAIMER) = 1 :=
  claim_C4 ⟨"fever", "my child has fever", "mild", "2 days"⟩ "Keep hydrated."
    (by decide) (by decide) (by decide) (by decide) (by decide)

/-- C5: an empty or too-short symptom name yields the 400 "symptom name"
error; with a valid name, an empty or too-short description yields the 400
"description" error, both independent of the model; and a request meeting
both minimum lengths never yields a 400. -/
theorem claim_C5 (r : SymptomRequest) (m : Except String String) :
    ((r.symptom_name = "" ∨ (pyStrip r.symptom_name).length < 2) →
        ask_symptom r m = .httpError 400 "Please provide a symptom name") ∧
    (¬(r.symptom_name = "" ∨ (pyStrip r.symptom_name).length < 2) →
      (r.description = "" ∨ (pyStrip r.description).length < 5) →
        ask_symptom r m = .httpError 400 "Please provide a detailed description") ∧
    (passesValidation r → ∀ detail, ask_symptom r m ≠ .httpError 400 detail) :=
  ⟨fun h => ask_symptom_invalid_name r m h,
   fun h1 h2 => ask_symptom_invalid_desc r m h1 h2,
   fun hv => valid_no_400 r m hv⟩

/-- C5 witness: a blank symptom name and a too-short description each hit
their 400 error. -/
theorem claim_C5_witness :
    ask_symptom ⟨"", "a good description", "mild", "1 day"⟩ (.ok "x") =
      .httpError 400 "Please provide a symptom name" ∧
    ask_symptom ⟨"fever", "aaa", "mild", "1 day"⟩ (.ok "x") =
      .httpError 400 "Please provide a detailed description" :=
  ⟨(claim_C5 ⟨"", "a good description", "mild", "1 day"⟩ (.ok "x")).1 (by decide),
   (claim_C5 ⟨"fever", "aaa", "mild", "1 day"⟩ (.ok "x")).2.1 (by decide) (by decide)⟩

/-- C6: once the model-call branch is reached, a raised exception or an
empty reply yields a 500 whose detail contains the error message, and never
a 200 body. -/
theorem claim_C6 (r : SymptomRequest) (e : String)
    (hv : passesValidation r)
    (hq : is_child_health_query (combined_query r) = true)
    (he : is_emergency (combined_query r) = false) :
    ask_symptom r (.error e) = .httpError 500 ("An error occurred: " ++ e) ∧
    SubstrOf e.toList ("An error occurred: " ++ e).toList ∧
    ask_symptom r (.ok "") = .httpError 500 "An error occurred: Empty response from API" ∧
    (∀ body, ask_symptom r (.error e) ≠ .json body) ∧
    (∀ body, ask_symptom r (.ok "") ≠ .json body) := by
  have h1 := ask_symptom_model_error r e hv hq he
  have h2 := ask_symptom_model_empty r hv hq he
  refine ⟨h1, ⟨"An error occurred: ".toList, [], ?_⟩, h2, ?_, ?_⟩
  · rw [List.append_nil]
    exact String.data_append "An error occurred: " e
  · intro body hbad
    rw [h1] at hbad
    exact Response.noConfusion hbad
  · intro body hbad
    rw [h2] at hbad
    exact Response.noConfusion hbad

/-- C6 witness: a failing call on a valid child-health query turns into the
500 error wrapping the message. -/
theorem claim_C6_witness :
    ask_symptom ⟨"cough", "baby has a bad cough", "mild", "3 days"⟩ (.error "boom") =
      .httpError 500 ("An error occurred: " ++ "boom") ∧
    SubstrOf "boom".toList ("An error occurred: " ++ "boom").toList ∧
    ask_symptom ⟨"cough", "baby has a bad cough", "mild", "3 days"⟩ (.ok "") =
      .httpError 500 "An error occurred: Empty response from API" ∧
    (∀ body, ask_symptom ⟨"cough", "baby has a bad cough", "mild", "3 days"⟩ (.error "boom") ≠
      .json body) ∧
    (∀ body, ask_symptom ⟨"cough", "baby has a bad cough", "mild", "3 days"⟩ (.ok "") ≠
      .json body) :=
  claim_C6 ⟨"cough", "baby has a bad cough", "mild", "3 days"⟩ "boom"
    (by decide) (by decide) (by decide)

/-- C7: the emergency short-circuit does not depend on the model: for any
two model behaviours the outcome is the same fixed alert body. -/
theorem claim_C7 (r : SymptomRequest) (m₁ m₂ : Except String String)
    (hv : passesValidation r)
    (hq : is_child_health_query (combined_query r) = true)
    (he : is_emergency (combined_query r) = true) :
    ask_symptom r m₁ = ask_symptom r m₂ ∧
    ask_symptom r m₁ = .json [("response", .str EMERGENCY_MESSAGE), ("emergency", .bool true),
      ("symptom", .str r.symptom_name)] := by
  have h1 := ask_symptom_emergency r m₁ hv hq he
  have h2 := ask_symptom_emergency r m₂ hv hq he
  exact ⟨h1.trans h2.symm, h1⟩

/-- C7 witness: an alert request is answered identically under a succeeding
and a failing model. -/
theorem claim_C7_witness :
    ask_symptom ⟨"fever", "baby had a seizure", "high", "1 hour"⟩ (.ok "a") =
      ask_symptom ⟨"fever", "baby had a seizure", "high", "1 hour"⟩ (.error "b") ∧
    ask_symptom ⟨"fever", "baby had a seizure", "high", "1 hour"⟩ (.ok "a") =
      .json [("response", .str EMERGENCY_MESSAGE), ("emergency", .bool true),
        ("symptom", .str "fever")] :=
  claim_C7 ⟨"fever", "baby had a seizure", "high", "1 hour"⟩ (.ok "a") (.error "b")
    (by decide) (by decide) (by decide)

/-- C8 counterexample: the refusal response is a 200 body that does not echo
the submitted severity or duration fields. -/
theorem claim_C8_counterexample :
    ask_symptom ⟨"math", "solve these equations", "severe", "3 days"⟩ (.ok "x") =
      .json [("response", .str REFUSAL_MESSAGE), ("emergency", .bool false),
        ("symptom", .str "math")] ∧
    ("severity", JVal.str "severe") ∉
      [("response", JVal.str REFUSAL_MESSAGE), ("emergency", JVal.bool false),
        ("symptom", JVal.str "math")] ∧
    ("duration", JVal.str "3 days") ∉
      [("response", JVal.str REFUSAL_MESSAGE), ("emergency", JVal.bool false),
        ("symptom", JVal.str "math")] := by
  refine ⟨by decide, by decide, by decide⟩

/-- C8 (amended): every 200 body carries a response text, the emergency
boolean, and echoes the symptom name; only the model-backed success body
additionally echoes severity and duration (the description is never
echoed). -/
theorem claim_C8 :
    (∀ (r : SymptomRequest) (m : Except String String) (body : List (String × JVal)),
        ask_symptom r m = .json body →
        (∃ t, ("response", JVal.str t) ∈ body) ∧
        (∃ b, ("emergency", JVal.bool b) ∈ body) ∧
        ("symptom", JVal.str r.symptom_name) ∈ body) ∧
    (∀ (r : SymptomRequest) (reply : String),
        passesValidation r →
        is_child_health_query (combined_query r) = true →
        is_emergency (combined_query r) = false →
        reply ≠ "" →
        ask_symptom r (.ok reply) =
          .json [("response", .str (sanitize_response reply)), ("emergency", .bool false),
            ("symptom", .str r.symptom_name), ("severity", .str r.severity),
            ("duration", .str r.duration)]) := by
  constructor
  · intro r m body hb
    by_cases h1 : r.symptom_name = "" ∨ (pyStrip r.symptom_name).length < 2
    · rw [ask_symptom_invalid_name r m h1] at hb
      exact Response.noConfusion hb
    · by_cases h2 : r.description = "" ∨ (pyStrip r.description).length < 5
      · rw [ask_symptom_invalid_desc r m h1 h2] at hb
        exact Response.noConfusion hb
      · have hv : passesValidation r := ⟨h1, h2⟩
        by_cases hq : is_child_health_query (combined_query r) = false
        · rw [ask_symptom_refusal r m hv hq] at hb
          simp only [Response.json.injEq] at hb
          subst hb
          exact ⟨⟨REFUSAL_MESSAGE, by simp⟩, ⟨false, by simp⟩, by simp⟩
        · have hq2 : is_child_health_query (combined_query r) = true := by
            revert hq
            cases is_child_health_query (combined_query r) <;> simp
          by_cases hem : is_emergency (combined_query r) = true
          · rw [ask_symptom_emergency r m hv hq2 hem] at hb
            simp only [Response.json.injEq] at hb
            subst hb
            exact ⟨⟨EMERGENCY_MESSAGE, by simp⟩, ⟨true, by simp⟩, by simp⟩
          · have hem2 : is_emergency (combined_query r) = false := by
              revert hem
              cases is_emergency (combined_query r) <;> simp
            cases m with
            | error e =>
              rw [ask_symptom_model_error r e hv hq2 hem2] at hb
              exact Response.noConfusion hb
            | ok t =>
              by_cases ht : t = ""
              · subst ht
                rw [ask_symptom_model_empty r hv hq2 hem2] at hb
                exact Response.noConfusion hb
              · rw [ask_symptom_model_ok r t hv hq2 hem2 ht] at hb
                simp only [Response.json.injEq] at hb
                subst hb
                exact ⟨⟨sanitize_response t, by simp⟩, ⟨false, by simp⟩, by simp⟩
  · intro r reply hv hq hem hne
    exact ask_symptom_model_ok r reply hv hq hem hne

/-- C9: both keyword checks are contiguous-substring tests over the
lowercased text, not whole-word tests; in particular "kidney" matches via
"kid" and "falling" via "fall". -/
theorem claim_C9 :
    (∀ text : String, is_child_health_query text = true ↔
        ∃ w ∈ ALLOWED_KEYWORDS, SubstrOf w.toList (pyLower text).toList) ∧
    (∀ text : String, is_emergency text = true ↔
        ∃ w ∈ EMERGENCY_KEYWORDS, SubstrOf w.toList (pyLower text).toList) ∧
    is_child_health_query "kidney stone pain" = true ∧
    is_emergency "falling asleep often" = true := by
  refine ⟨?_, ?_, by decide, by decide⟩
  · intro text
    rw [is_child_health_query, List.any_eq_true]
    constructor
    · rintro ⟨w, hw, hp⟩
      exact ⟨w, hw, (containsSeq_iff w.toList (pyLower text).toList).mp hp⟩
    · rintro ⟨w, hw, hs⟩
      exact ⟨w, hw, (containsSeq_iff w.toList (pyLower text).toList).mpr hs⟩
  · intro text
    rw [is_emergency, List.any_eq_true]
    constructor
    · rintro ⟨w, hw, hp⟩
      exact ⟨w, hw, (containsSeq_iff w.toList (pyLower text).toList).mp hp⟩
    · rintro ⟨w, hw, hs⟩
      exact ⟨w, hw, (containsSeq_iff w.toList (pyLower text).toList).mpr hs⟩

/-- C10: the handler returns a 400 exactly when the whitespace-stripped
symptom name is shorter than 2 or the whitespace-stripped description is
shorter than 5; severity and duration never enter the test. -/
theorem claim_C10 (r : SymptomRequest) (m : Except String String) :
    is400 (ask_symptom r m) = true ↔
      ((pyStrip r.symptom_name).length < 2 ∨ (pyStrip r.description).length < 5) := by
  by_cases h1 : r.symptom_name = "" ∨ (pyStrip r.symptom_name).length < 2
  · rw [ask_symptom_invalid_name r m h1]
    refine iff_of_true rfl ?_
    rcases h1 with hemp | hlt
    · left
      rw [hemp]
      decide
    · exact Or.inl hlt
  · by_cases h2 : r.description = "" ∨ (pyStrip r.description).length < 5
    · rw [ask_symptom_invalid_desc r m h1 h2]
      refine iff_of_true rfl ?_
      rcases h2 with hemp | hlt
      · right
        rw [hemp]
        decide
      · exact Or.inr hlt
    · refine iff_of_false ?_ ?_
      · rcases ask_symptom_cases r m ⟨h1, h2⟩ with ⟨body, hb⟩ | ⟨d, hd⟩
        · rw [hb]
          simp [is400]
        · rw [hd]
          simp [is400]
      · rintro (hbad | hbad)
        · exact (not_or.mp h1).2 hbad
        · exact (not_or.mp h2).2 hbad

/-- C10 witness: a whitespace-only symptom name is rejected with a 400 even
though its raw length is 5. -/
theorem claim_C10_witness :
    is400 (ask_symptom ⟨"     ", "a description here", "x", "y"⟩ (.ok "z")) = true :=
  (claim_C10 ⟨"     ", "a description here", "x", "y"⟩ (.ok "z")).mpr (by decide)

end ParentPal
